import Mathlib

/-!
Shallow embedding of the FitDuo realtime backend core
(backend/app/services/game_logic.py, matchmaking.py, connection_manager.py,
backend/app/routers/websocket.py, matchmaking.py) and proofs about the
claims of its specification.

Conventions of the embedding:
* Python ints are `Int` (scores, rounds_won) or `Nat` (ids, indices).
* `datetime.utcnow()` is passed in as an explicit `now : Int` (seconds);
  `timedelta` comparisons become `Int` comparisons.
* `GameStatus` enum values are stored as the strings the code stores
  (`status = GameStatus.X.value`): "waiting", "active", "round_end", "finished".
* Database reads/writes (`session.get`, `commit`) are modelled by passing the
  `GameSession` record in and out; broadcasts and LLM calls are I/O with no
  effect on the session state and are not modelled, except where a claim
  counts emitted events (COUNTDOWN_START), where the count is returned.
* `asyncio.Lock` is not reentrant: a task that awaits `lock.acquire()` while
  it itself already holds the lock suspends forever (single event loop, the
  only holder is the suspended task).  Methods that acquire `self.lock` are
  therefore modelled with an explicit `lockHeld : Bool` argument saying
  whether the calling task already holds `self.lock`; the result type is
  `Option _`, where `none` means the call never returns.
-/

namespace FitDuo

/-- Model of `GameSession` (backend/app/models/game_session.py). -/
structure GameSession where
  player_a_id : Nat
  player_b_id : Nat
  player_a_score : Int
  player_b_score : Int
  player_a_rounds_won : Int
  player_b_rounds_won : Int
  current_round : Int
  status : String
  current_exercise_id : Option Nat
  updated_at : Int
deriving DecidableEq, Repr

/-- Embedding of `handle_rep_increment` (game_logic.py, lines 8-68): the state update on the
fetched `GameSession`.  The code sets the reporting player's score to the
reported count, updates `updated_at`, and flips a "waiting" status to
"active"; a player id matching neither seat returns before any mutation.
Broadcasts (REP_INCREMENT to the opponent, GAME_STATE to all) read the
updated record and do not change it. -/
def handle_rep_increment (now : Int) (s : GameSession) (player_id : Nat)
    (rep_count : Int) : GameSession :=
  if s.player_a_id = player_id then
    { s with player_a_score := rep_count
             updated_at := now
             status := if s.status = "waiting" then "active" else s.status }
  else if s.player_b_id = player_id then
    { s with player_b_score := rep_count
             updated_at := now
             status := if s.status = "waiting" then "active" else s.status }
  else
    s

/-- The locals of `handle_round_end` that feed the ROUND_END broadcast
payload (winnerId, loserId, gameOver, matchWinnerId). -/
structure RoundEndResult where
  winner_id : Option Nat
  loser_id : Option Nat
  game_over : Bool
  match_winner_id : Option Nat
deriving DecidableEq, Repr

/-- The rounds_won mutation of `handle_round_end` (game_logic.py, lines
89-106): the strictly higher scorer's counter goes up by one, a tie changes
nothing. -/
def round_end_rounds (s : GameSession) : GameSession :=
  if s.player_a_score > s.player_b_score then
    { s with player_a_rounds_won := s.player_a_rounds_won + 1 }
  else if s.player_b_score > s.player_a_score then
    { s with player_b_rounds_won := s.player_b_rounds_won + 1 }
  else s

/-- The `winner_id`/`loser_id` locals of `handle_round_end` over the same
score comparison: `(None, None)` on a tie. -/
def round_end_winner (s : GameSession) : Option Nat × Option Nat :=
  if s.player_a_score > s.player_b_score then
    (some s.player_a_id, some s.player_b_id)
  else if s.player_b_score > s.player_a_score then
    (some s.player_b_id, some s.player_a_id)
  else (none, none)

/-- The `game_over`/`match_winner_id` computation of `handle_round_end`
(lines 108-116) on the already-incremented counters: player A is checked
first. -/
def round_end_over (s1 : GameSession) : Bool × Option Nat :=
  if s1.player_a_rounds_won ≥ 2 then (true, some s1.player_a_id)
  else if s1.player_b_rounds_won ≥ 2 then (true, some s1.player_b_id)
  else (false, none)

/-- Embedding of `handle_round_end` (game_logic.py, lines 71-185): compares the two scores
of the fetched session; the strictly higher scorer's `rounds_won` is
incremented, a tie increments nothing and reports no winner.  Then, on the
updated counters, `rounds_won >= 2` (player A checked first) sets
`game_over`/`match_winner_id` and the status becomes "finished", otherwise
"round_end".  The function never reads `status`, so it runs the same way on
an already finished session.  LLM narrative/strategy and the broadcasts are
I/O on the resulting record and are not modelled. -/
def handle_round_end (now : Int) (s : GameSession) :
    GameSession × RoundEndResult :=
  ({ round_end_rounds s with
      status :=
        if (round_end_over (round_end_rounds s)).1 then "finished"
        else "round_end"
      updated_at := now },
   ⟨(round_end_winner s).1, (round_end_winner s).2,
    (round_end_over (round_end_rounds s)).1,
    (round_end_over (round_end_rounds s)).2⟩)

/-- The `QueuedPlayer` dataclass (matchmaking.py, lines 19-29).  `win_rate` is a
Python float that is only ever stored and echoed, never computed with, so a
rational stands in for it.  `queued_at` is seconds; `search_range_expanded`
is never read anywhere and is omitted. -/
structure QueuedPlayer where
  player_id : Nat
  user_id : Nat
  level : Int
  experience_points : Int
  win_rate : Rat
  exercise_id : Option Nat
  queued_at : Int
deriving DecidableEq, Repr

/-- Value of `self.queue_timeout = timedelta(minutes=5)` in seconds. -/
def queue_timeout : Int := 300

/-- Body of `remove_player` (matchmaking.py, lines 114-121) once `self.lock`
is held: `del self.queue[player_id]` and `True` when present, else `False`.
The queue (an `OrderedDict` keyed by `player_id`) is a list of entries in
insertion order; deleting the key is a filter on `player_id` (keys are
unique). -/
def remove_player_locked (st : List QueuedPlayer) (pid : Nat) :
    List QueuedPlayer × Bool :=
  if st.any (fun q => q.player_id == pid) then
    (st.filter (fun q => q.player_id != pid), true)
  else
    (st, false)

/-- Embedding of `remove_player` including its `async with self.lock`: if the calling task
already holds `self.lock`, `acquire()` suspends forever (asyncio locks are
not reentrant) and the call never returns (`none`). -/
def remove_player (lockHeld : Bool) (st : List QueuedPlayer) (pid : Nat) :
    Option (List QueuedPlayer × Bool) :=
  if lockHeld then none else some (remove_player_locked st pid)

/-- Embedding of `add_player` (matchmaking.py, lines 50-112), queue mutation under
`self.lock` (free at its call sites, where `add_player` is the outermost
acquirer): already-queued ids return `False` with the queue untouched,
otherwise the player is inserted at the tail of the `OrderedDict` and `True`
is returned.  The deferred wait-for-websocket matching task it schedules does
not touch the queue before `_try_match_player` runs and is modelled there. -/
def add_player (st : List QueuedPlayer) (p : QueuedPlayer) :
    List QueuedPlayer × Bool :=
  if st.any (fun q => q.player_id == p.player_id) then (st, false)
  else (st ++ [p], true)

/-- A top-level queue operation: the router's join-queue (`add_player`) or
leave-queue (`remove_player`, called with `self.lock` free). -/
inductive QueueOp where
  | add (p : QueuedPlayer)
  | remove (pid : Nat)
deriving Repr

/-- Run a sequence of top-level add/remove operations on the queue. -/
def run_queue_ops : List QueueOp → List QueuedPlayer → List QueuedPlayer
  | [], st => st
  | QueueOp.add p :: rest, st => run_queue_ops rest (add_player st p).1
  | QueueOp.remove pid :: rest, st =>
      run_queue_ops rest (remove_player_locked st pid).1

/-- The queue never holds two entries with the same `player_id` (an
`OrderedDict` key occurs once). -/
abbrev NodupKeys (st : List QueuedPlayer) : Prop :=
  (st.map (fun q => q.player_id)).Nodup

/-- Response shape of `get_queue_status`. -/
structure QueueStatus where
  in_queue : Bool
  queue_position : Nat
  estimated_wait : Nat
deriving DecidableEq, Repr

/-- Embedding of `get_queue_status` (matchmaking.py, lines 123-173): membership check,
then the player's 0-based index `i` in the FIFO order; reported position is
`i + 1` and the wait heuristic is 30 for `i = 0`, 5 for `i = 1`, otherwise
`max(10, (i // 2) * 30)` (`pairs_ahead = player_position // 2` on the
0-based index). -/
def get_queue_status (st : List QueuedPlayer) (pid : Nat) : QueueStatus :=
  if st.any (fun q => q.player_id == pid) then
    let i := st.findIdx (fun q => q.player_id == pid)
    { in_queue := true
      queue_position := i + 1
      estimated_wait :=
        if i = 0 then 30 else if i = 1 then 5 else max 10 (i / 2 * 30) }
  else
    { in_queue := false, queue_position := 0, estimated_wait := 0 }

/-- Embedding of `_create_match` (matchmaking.py, lines 260-321).  `commit_ok` says
whether creating the persisted `GameSession` succeeds; on failure the
exception is caught, the session rolled back and `None` returned with the
queue untouched.  On success the code awaits `remove_player` for both
players; each such call re-acquires `self.lock`, so it deadlocks (`none`)
whenever the caller already holds it.  The returned `Bool` is whether match
info was returned. -/
def create_match (lockHeld : Bool) (commit_ok : Bool) (p1 p2 : QueuedPlayer)
    (st : List QueuedPlayer) : Option (List QueuedPlayer × Bool) :=
  if commit_ok then
    match remove_player lockHeld st p1.player_id with
    | none => none
    | some r1 =>
      match remove_player lockHeld r1.1 p2.player_id with
      | none => none
      | some r2 => some (r2.1, true)
  else
    some (st, false)

/-- Embedding of `_try_match_player` (matchmaking.py, lines 194-227): takes
`self.matching_lock` then `self.lock` (both free for the fresh matching
task), re-checks the requesting player is queued and that at least two
players are present, re-verifies the first two are still queued, and calls
`_create_match` on them — still inside `async with self.lock`, hence with
`lockHeld := true`. -/
def try_match_player (commit_ok : Bool) (pid : Nat)
    (st : List QueuedPlayer) : Option (List QueuedPlayer × Bool) :=
  if st.any (fun q => q.player_id == pid) then
    if 2 ≤ st.length then
      match st with
      | p1 :: p2 :: _ =>
        if st.any (fun q => q.player_id == p1.player_id) &&
           st.any (fun q => q.player_id == p2.player_id) then
          create_match true commit_ok p1 p2 st
        else some (st, false)
      | _ => some (st, false)
    else some (st, false)
  else some (st, false)

/-- Loop body of `cleanup_stale_players`: awaits `remove_player` for each
stale id while `self.lock` is held by the sweep itself. -/
def remove_each_stale (pids : List Nat) (st : List QueuedPlayer) :
    Option (List QueuedPlayer) :=
  match pids with
  | [] => some st
  | pid :: rest =>
    match remove_player true st pid with
    | none => none
    | some r => remove_each_stale rest r.1

/-- Embedding of `cleanup_stale_players` (matchmaking.py, lines 323-335): under
`async with self.lock` it collects the ids whose wait exceeds
`queue_timeout` and then calls `remove_player` on each — with `self.lock`
still held. -/
def cleanup_stale_players (now : Int) (st : List QueuedPlayer) :
    Option (List QueuedPlayer) :=
  let stale :=
    (st.filter (fun q => queue_timeout < now - q.queued_at)).map
      (fun q => q.player_id)
  remove_each_stale stale st

/-- Lookup in a Python dict modelled as an insertion-ordered association
list with unique keys. -/
def alookup {α : Type} : List (Nat × α) → Nat → Option α
  | [], _ => none
  | (k, v) :: rest, g => if k = g then some v else alookup rest g

/-- Assignment `d[k] = v` on a dict: replaces the value of an existing key in place,
otherwise appends at the end (insertion order). -/
def aset {α : Type} : List (Nat × α) → Nat → α → List (Nat × α)
  | [], g, v => [(g, v)]
  | (k, w) :: rest, g, v =>
    if k = g then (k, v) :: rest else (k, w) :: aset rest g v

/-- Deletion `del d[k]` on a dict (keys unique). -/
def aerase {α : Type} : List (Nat × α) → Nat → List (Nat × α)
  | [], _ => []
  | (k, v) :: rest, g => if k = g then aerase rest g else (k, v) :: aerase rest g

/-- Deletion `del d[k]` on the inner per-game dict, of which only the keys (player
ids) matter here. -/
def removeKey : List Nat → Nat → List Nat
  | [], _ => []
  | x :: rest, p => if x = p then removeKey rest p else x :: removeKey rest p

/-- State of `ConnectionManager` (connection_manager.py): per-game connected player
ids (the keys of `active_connections[game_id]`; the websocket values play no
role in the claims) and the per-game ready flags. -/
structure ConnectionManager where
  active_connections : List (Nat × List Nat)
  player_ready_status : List (Nat × List (Nat × Bool))
deriving DecidableEq, Repr

/-- Embedding of `disconnect` (connection_manager.py, lines 21-28): if the game is
registered, delete the player's key if present, then prune the game's entry
entirely when its dict is empty. -/
def disconnect (cm : ConnectionManager) (game_id player_id : Nat) :
    ConnectionManager :=
  match alookup cm.active_connections game_id with
  | none => cm
  | some players =>
    let players1 :=
      if player_id ∈ players then removeKey players player_id else players
    if players1 = [] then
      { cm with active_connections := aerase cm.active_connections game_id }
    else
      { cm with active_connections := aset cm.active_connections game_id players1 }

/-- Embedding of `get_connected_players` (connection_manager.py, lines 56-60). -/
def get_connected_players (cm : ConnectionManager) (game_id : Nat) :
    List Nat :=
  (alookup cm.active_connections game_id).getD []

/-- Value of `self.player_ready_status.get(game_id, dict()).get(player_id, False)`. -/
def ready_flag (cm : ConnectionManager) (game_id player_id : Nat) : Bool :=
  (alookup ((alookup cm.player_ready_status game_id).getD []) player_id).getD
    false

/-- Embedding of `set_player_ready` (connection_manager.py, lines 62-74): records the
flag (creating the per-game dict if needed), then returns `True` exactly
when the game has a registered connection dict with exactly two players and
every one of them has a true flag recorded. -/
def set_player_ready (cm : ConnectionManager) (game_id player_id : Nat)
    (is_ready : Bool) : ConnectionManager × Bool :=
  let gmap := (alookup cm.player_ready_status game_id).getD []
  let ready1 :=
    aset cm.player_ready_status game_id (aset gmap player_id is_ready)
  let cm1 := { cm with player_ready_status := ready1 }
  let result :=
    match alookup cm.active_connections game_id with
    | none => false
    | some players =>
      if players.length = 2 then
        players.all (fun p => ready_flag cm1 game_id p)
      else false
  (cm1, result)

/-- The PLAYER_READY branch of `handle_websocket_message` (websocket.py,
lines 218-258): calls `set_player_ready` and broadcasts COUNTDOWN_START
exactly when it returned `True`.  The last component counts the
COUNTDOWN_START broadcasts the branch emits. -/
def handle_player_ready (cm : ConnectionManager) (game_id player_id : Nat)
    (is_ready : Bool) : ConnectionManager × Bool × Nat :=
  let r := set_player_ready cm game_id player_id is_ready
  (r.1, r.2, if r.2 then 1 else 0)

/-- The parameter names of `MatchmakingQueue.add_player` (matchmaking.py,
lines 50-58), `self` aside.  There is no `**kwargs`. -/
def add_player_params : List String :=
  ["player_id", "user_id", "level", "experience_points", "win_rate",
   "exercise_id"]

/-- The keyword arguments the router's `join_queue` passes to
`matchmaking_queue.add_player` (routers/matchmaking.py, lines 66-74). -/
def join_queue_kwargs : List String :=
  ["player_id", "user_id", "level", "experience_points", "win_rate",
   "exercise_id", "session"]

/-- Python keyword-call binding for a signature without `**kwargs`: the call
enters the function body only if every keyword argument names a parameter;
otherwise it raises `TypeError` before any effect. -/
def kwargs_accepted (kwargs params : List String) : Bool :=
  kwargs.all (fun k => params.contains k)

/-- Concrete queued player used by witnesses and counterexamples. -/
def qp (pid : Nat) (t : Int) : QueuedPlayer :=
  { player_id := pid, user_id := pid, level := 1, experience_points := 0,
    win_rate := 0, exercise_id := none, queued_at := t }

/-- A session mid-match: player A leads 10-7 with one round already won. -/
def c1_session : GameSession :=
  { player_a_id := 1, player_b_id := 2, player_a_score := 10,
    player_b_score := 7, player_a_rounds_won := 1, player_b_rounds_won := 0,
    current_round := 2, status := "active", current_exercise_id := none,
    updated_at := 0 }

/-- A finished session: player A won the match 2-0, last scores 10-7. -/
def fin_session_a : GameSession :=
  { player_a_id := 1, player_b_id := 2, player_a_score := 10,
    player_b_score := 7, player_a_rounds_won := 2, player_b_rounds_won := 0,
    current_round := 3, status := "finished", current_exercise_id := none,
    updated_at := 0 }

/-- A finished session: player B won the match (2 rounds), player A has 1
round and the lingering scores favour A. -/
def fin_session_b : GameSession :=
  { player_a_id := 1, player_b_id := 2, player_a_score := 10,
    player_b_score := 7, player_a_rounds_won := 1, player_b_rounds_won := 2,
    current_round := 4, status := "finished", current_exercise_id := none,
    updated_at := 0 }

/-- A fresh waiting session between players 1 and 2. -/
def waiting_session : GameSession :=
  { player_a_id := 1, player_b_id := 2, player_a_score := 0,
    player_b_score := 0, player_a_rounds_won := 0, player_b_rounds_won := 0,
    current_round := 1, status := "waiting", current_exercise_id := none,
    updated_at := 0 }

/-- A registry with game 7 holding connected players 1 and 2, no flags. -/
def cm_two_players : ConnectionManager :=
  { active_connections := [(7, [1, 2])], player_ready_status := [] }

/-- A registry with game 7 holding only player 2. -/
def cm_one_player : ConnectionManager :=
  { active_connections := [(7, [2])], player_ready_status := [] }

/-- A first-round session between players 1 and 2 with scores 10-7 and no
rounds won yet. -/
def active_session : GameSession :=
  { player_a_id := 1, player_b_id := 2, player_a_score := 10,
    player_b_score := 7, player_a_rounds_won := 0, player_b_rounds_won := 0,
    current_round := 1, status := "active", current_exercise_id := none,
    updated_at := 0 }

/-! Helper lemmas about the dict and queue model. -/

/-- Writing a key in a dict makes lookup of that key return the value. -/
theorem alookup_aset_self {α : Type} (m : List (Nat × α)) (g : Nat) (v : α) :
    alookup (aset m g v) g = some v := by
  induction m with
  | nil => simp [aset, alookup]
  | cons kv rest ih =>
    obtain ⟨k, w⟩ := kv
    by_cases h : k = g
    · simp [aset, alookup, h]
    · simp [aset, alookup, h, ih]

/-- Writing a key twice keeps only the second value. -/
theorem aset_aset {α : Type} (m : List (Nat × α)) (g : Nat) (v w : α) :
    aset (aset m g v) g w = aset m g w := by
  induction m with
  | nil => simp [aset]
  | cons kv rest ih =>
    obtain ⟨k, u⟩ := kv
    by_cases h : k = g
    · simp [aset, h]
    · simp [aset, h, ih]

/-- Deleting a key from a dict makes lookup of that key fail. -/
theorem alookup_aerase_self {α : Type} (m : List (Nat × α)) (g : Nat) :
    alookup (aerase m g) g = none := by
  induction m with
  | nil => simp [aerase, alookup]
  | cons kv rest ih =>
    obtain ⟨k, w⟩ := kv
    by_cases h : k = g
    · simp [aerase, h, ih]
    · simp [aerase, alookup, h, ih]

/-- Deleting a key removes every occurrence of it. -/
theorem not_mem_removeKey (l : List Nat) (p : Nat) : p ∉ removeKey l p := by
  induction l with
  | nil => simp [removeKey]
  | cons x rest ih =>
    by_cases h : x = p
    · simpa [removeKey, h] using ih
    · simp [removeKey, h, ih, Ne.symm h]

/-- Queue membership as a boolean `any` over the entries. -/
theorem any_key_eq_true_of_mem {st : List QueuedPlayer} {q : QueuedPlayer}
    (hq : q ∈ st) {pid : Nat} (hp : q.player_id = pid) :
    st.any (fun r => r.player_id == pid) = true :=
  List.any_eq_true.mpr ⟨q, hq, by simp [hp]⟩

/-- With no duplicate keys, `findIdx` on a key finds the index of the unique
entry holding it. -/
theorem findIdx_key_of_nodup (st : List QueuedPlayer) (pid : Nat) (i : Nat)
    (hi : i < st.length) (hkey : NodupKeys st)
    (hp : (st.get ⟨i, hi⟩).player_id = pid) :
    st.findIdx (fun q => q.player_id == pid) = i := by
  induction st generalizing i with
  | nil => exact absurd hi (by simp)
  | cons q rest ih =>
    have hkey' : q.player_id ∉ rest.map (fun r => r.player_id) ∧
        NodupKeys rest := by
      simpa [NodupKeys, List.nodup_cons] using hkey
    cases i with
    | zero =>
      simp only [List.get] at hp
      simp [List.findIdx_cons, hp]
    | succ j =>
      have hj : j < rest.length := Nat.lt_of_succ_lt_succ hi
      have hpj : (rest.get ⟨j, hj⟩).player_id = pid := hp
      have hne : (q.player_id == pid) = false := by
        rw [beq_eq_false_iff_ne]
        intro hqe
        apply hkey'.1
        rw [hqe, ← hpj]
        exact List.mem_map_of_mem _ (rest.get_mem _ _)
      simp [List.findIdx_cons, hne, ih j hj hkey'.2 hpj]

/-- Lemma: `add_player` keeps queue keys duplicate-free. -/
theorem nodupKeys_add_player {st : List QueuedPlayer} (p : QueuedPlayer)
    (h : NodupKeys st) : NodupKeys (add_player st p).1 := by
  unfold add_player
  cases hany : st.any (fun q => q.player_id == p.player_id) with
  | true => rw [if_pos rfl]; exact h
  | false =>
    have hnotin : p.player_id ∉ st.map (fun q => q.player_id) := by
      intro hmem
      obtain ⟨q, hq, hqe⟩ := List.mem_map.mp hmem
      have : st.any (fun q => q.player_id == p.player_id) = true :=
        List.any_eq_true.mpr ⟨q, hq, by simp [hqe]⟩
      rw [hany] at this
      exact absurd this (by simp)
    rw [if_neg (by simp)]
    show ((st ++ [p]).map (fun q => q.player_id)).Nodup
    rw [List.map_append, List.nodup_append]
    refine ⟨h, by simp, ?_⟩
    intro x hx hx'
    simp only [List.map_cons, List.map_nil, List.mem_singleton] at hx'
    rw [hx'] at hx
    exact hnotin hx

/-- Lemma: the queue mutation of `remove_player` keeps queue keys duplicate-free. -/
theorem nodupKeys_remove_locked {st : List QueuedPlayer} (pid : Nat)
    (h : NodupKeys st) : NodupKeys (remove_player_locked st pid).1 := by
  unfold remove_player_locked
  cases hany : st.any (fun q => q.player_id == pid) with
  | true =>
    rw [if_pos rfl]
    exact List.Nodup.sublist
      (List.Sublist.map _ (List.filter_sublist st)) h
  | false => rw [if_neg (by simp)]; exact h

/-! Claim theorems. -/

/-- C1 (counterexample): with both rounds_won previously below 2 (A has 1,
B has 0) and A scoring strictly higher, `handle_round_end` does not set the
status to "round_end" as the claim requires: the increment brings A to 2 and
the status becomes "finished". -/
theorem handle_round_end_premature_finish :
    c1_session.player_a_rounds_won < 2 ∧ c1_session.player_b_rounds_won < 2 ∧
    c1_session.player_b_score < c1_session.player_a_score ∧
    (handle_round_end 0 c1_session).1.status ≠ "round_end" ∧
    (handle_round_end 0 c1_session).1.status = "finished" := by
  refine ⟨by decide, by decide, by decide, by decide, rfl⟩

/-- C1 (amended): `handle_round_end` gives the strictly higher scorer exactly
one more round win, leaves the other count unchanged and reports that player
as round winner; the status becomes "round_end" provided both counts are
still below 2 after the increment.  Equal scores change neither count and
report no winner. -/
theorem handle_round_end_scoring (now : Int) (s : GameSession) :
    (s.player_b_score < s.player_a_score →
      (handle_round_end now s).1.player_a_rounds_won =
        s.player_a_rounds_won + 1 ∧
      (handle_round_end now s).1.player_b_rounds_won =
        s.player_b_rounds_won ∧
      (handle_round_end now s).2.winner_id = some s.player_a_id ∧
      (s.player_a_rounds_won + 1 < 2 → s.player_b_rounds_won < 2 →
        (handle_round_end now s).1.status = "round_end")) ∧
    (s.player_a_score < s.player_b_score →
      (handle_round_end now s).1.player_b_rounds_won =
        s.player_b_rounds_won + 1 ∧
      (handle_round_end now s).1.player_a_rounds_won =
        s.player_a_rounds_won ∧
      (handle_round_end now s).2.winner_id = some s.player_b_id ∧
      (s.player_b_rounds_won + 1 < 2 → s.player_a_rounds_won < 2 →
        (handle_round_end now s).1.status = "round_end")) ∧
    (s.player_a_score = s.player_b_score →
      (handle_round_end now s).1.player_a_rounds_won =
        s.player_a_rounds_won ∧
      (handle_round_end now s).1.player_b_rounds_won =
        s.player_b_rounds_won ∧
      (handle_round_end now s).2.winner_id = none) := by
  refine ⟨?_, ?_, ?_⟩
  · intro h
    have e1 : round_end_rounds s =
        { s with player_a_rounds_won := s.player_a_rounds_won + 1 } := by
      unfold round_end_rounds
      rw [if_pos h]
    have e2 : round_end_winner s = (some s.player_a_id, some s.player_b_id) := by
      unfold round_end_winner
      rw [if_pos h]
    refine ⟨?_, ?_, ?_, ?_⟩
    · show (round_end_rounds s).player_a_rounds_won = _
      rw [e1]
    · show (round_end_rounds s).player_b_rounds_won = _
      rw [e1]
    · show (round_end_winner s).1 = _
      rw [e2]
    · intro h1 h2
      have e3 : round_end_over (round_end_rounds s) = (false, none) := by
        rw [e1]
        unfold round_end_over
        rw [if_neg (show ¬ s.player_a_rounds_won + 1 ≥ 2 by omega),
          if_neg (show ¬ s.player_b_rounds_won ≥ 2 by omega)]
      show (if (round_end_over (round_end_rounds s)).1 then "finished"
        else "round_end") = _
      rw [e3]
      rfl
  · intro h
    have hno : ¬ s.player_b_score < s.player_a_score := by omega
    have e1 : round_end_rounds s =
        { s with player_b_rounds_won := s.player_b_rounds_won + 1 } := by
      unfold round_end_rounds
      rw [if_neg hno, if_pos h]
    have e2 : round_end_winner s = (some s.player_b_id, some s.player_a_id) := by
      unfold round_end_winner
      rw [if_neg hno, if_pos h]
    refine ⟨?_, ?_, ?_, ?_⟩
    · show (round_end_rounds s).player_b_rounds_won = _
      rw [e1]
    · show (round_end_rounds s).player_a_rounds_won = _
      rw [e1]
    · show (round_end_winner s).1 = _
      rw [e2]
    · intro h1 h2
      have e3 : round_end_over (round_end_rounds s) = (false, none) := by
        rw [e1]
        unfold round_end_over
        rw [if_neg (show ¬ s.player_a_rounds_won ≥ 2 by omega),
          if_neg (show ¬ s.player_b_rounds_won + 1 ≥ 2 by omega)]
      show (if (round_end_over (round_end_rounds s)).1 then "finished"
        else "round_end") = _
      rw [e3]
      rfl
  · intro h
    have hno : ¬ s.player_b_score < s.player_a_score := by omega
    have hno' : ¬ s.player_a_score < s.player_b_score := by omega
    have e1 : round_end_rounds s = s := by
      unfold round_end_rounds
      rw [if_neg hno, if_neg hno']
    have e2 : round_end_winner s = (none, none) := by
      unfold round_end_winner
      rw [if_neg hno, if_neg hno']
    refine ⟨?_, ?_, ?_⟩
    · show (round_end_rounds s).player_a_rounds_won = _
      rw [e1]
    · show (round_end_rounds s).player_b_rounds_won = _
      rw [e1]
    · show (round_end_winner s).1 = _
      rw [e2]

/-- Witness for C1's amended theorem at a concrete session: players 1 and 2,
scores 10-7, no rounds won yet. -/
theorem handle_round_end_scoring_witness :
    (handle_round_end 0 active_session).1.player_a_rounds_won =
      active_session.player_a_rounds_won + 1 ∧
    (handle_round_end 0 active_session).2.winner_id = some 1 ∧
    (handle_round_end 0 active_session).1.status = "round_end" := by
  have h := (handle_round_end_scoring 0 active_session).1 (by decide)
  exact ⟨h.1, h.2.2.1, h.2.2.2 (by decide) (by decide)⟩

/-- C2 (code evaluated at the failing input): `handle_round_end` never
checks the session status, so on a finished match (A already has 2 round
wins, lingering scores 10-7) it increments A's rounds_won to 3 instead of
being a no-op; and on a match B already won (B has 2 round wins, A has 1),
one further call with A scoring higher brings A to 2, after which the
reported match winner is player A (checked first), not the player that had
won the match. -/
theorem handle_round_end_finished_not_noop :
    (handle_round_end 0 fin_session_a).1.player_a_rounds_won = 3 ∧
    fin_session_a.player_a_rounds_won = 2 ∧
    (handle_round_end 0 fin_session_a).1.status = "finished" ∧
    fin_session_b.player_b_rounds_won = 2 ∧
    (handle_round_end 0 fin_session_b).2.match_winner_id =
      some fin_session_b.player_a_id :=
  ⟨rfl, rfl, rfl, rfl, rfl⟩

/-- C3 (code evaluated at the failing input): with players 1 and 2 queued
and the persisted game session created successfully, `_try_match_player`
never returns — `_create_match` awaits `remove_player`, which re-acquires
the non-reentrant `self.lock` the caller already holds, so neither player is
ever removed from the queue.  The failure path, by contrast, returns with
the queue untouched. -/
theorem create_match_success_path_blocks :
    try_match_player true 1 [qp 1 0, qp 2 0] = none ∧
    remove_player true [qp 1 0, qp 2 0] 1 = none ∧
    create_match true false (qp 1 0) (qp 2 0) [qp 1 0, qp 2 0] =
      some ([qp 1 0, qp 2 0], false) :=
  ⟨rfl, rfl, rfl⟩

/-- C4: every sequence of top-level add/remove operations keeps the queue
free of duplicate player ids; `add_player` on a queued id returns `false`
and leaves the queue unchanged; `add_player` on a new id returns `true` and
appends the player at the tail. -/
theorem add_player_queue_invariants :
    (∀ (ops : List QueueOp) (st : List QueuedPlayer),
      NodupKeys st → NodupKeys (run_queue_ops ops st)) ∧
    (∀ (st : List QueuedPlayer) (p : QueuedPlayer),
      (∃ q ∈ st, q.player_id = p.player_id) →
        add_player st p = (st, false)) ∧
    (∀ (st : List QueuedPlayer) (p : QueuedPlayer),
      (∀ q ∈ st, q.player_id ≠ p.player_id) →
        add_player st p = (st ++ [p], true)) := by
  refine ⟨?_, ?_, ?_⟩
  · intro ops
    induction ops with
    | nil => intro st h; simpa [run_queue_ops] using h
    | cons op rest ih =>
      intro st h
      cases op with
      | add p => exact ih _ (nodupKeys_add_player p h)
      | remove pid => exact ih _ (nodupKeys_remove_locked pid h)
  · rintro st p ⟨q, hq, hqe⟩
    unfold add_player
    rw [if_pos (any_key_eq_true_of_mem hq hqe)]
  · intro st p h
    have hany : ¬ st.any (fun q => q.player_id == p.player_id) = true := by
      intro hc
      obtain ⟨q, hq, hqe⟩ := List.any_eq_true.mp hc
      exact h q hq (by simpa using hqe)
    unfold add_player
    rw [if_neg hany]

/-- Witness for C4 at concrete inputs. -/
theorem add_player_queue_invariants_witness :
    NodupKeys (run_queue_ops
      [QueueOp.add (qp 1 0), QueueOp.add (qp 1 5), QueueOp.add (qp 2 0),
       QueueOp.remove 1] []) ∧
    add_player [qp 1 0] (qp 1 5) = ([qp 1 0], false) ∧
    add_player [qp 1 0] (qp 2 0) = ([qp 1 0, qp 2 0], true) :=
  ⟨add_player_queue_invariants.1 _ _ (by decide),
   add_player_queue_invariants.2.1 _ _ ⟨qp 1 0, by decide, by decide⟩,
   add_player_queue_invariants.2.2 _ _ (by decide)⟩

/-- C5: `handle_rep_increment` sets exactly the reporting seat's score to
the reported count, leaves the other score and both rounds_won unchanged,
and turns a "waiting" status into "active" (otherwise the status is kept);
a player id matching neither seat leaves the whole session unchanged. -/
theorem handle_rep_increment_spec (now : Int) (s : GameSession) (pid : Nat)
    (n : Int) :
    (s.player_a_id = pid →
      (handle_rep_increment now s pid n).player_a_score = n ∧
      (handle_rep_increment now s pid n).player_b_score = s.player_b_score ∧
      (handle_rep_increment now s pid n).player_a_rounds_won =
        s.player_a_rounds_won ∧
      (handle_rep_increment now s pid n).player_b_rounds_won =
        s.player_b_rounds_won ∧
      (handle_rep_increment now s pid n).status =
        (if s.status = "waiting" then "active" else s.status)) ∧
    (s.player_a_id ≠ pid → s.player_b_id = pid →
      (handle_rep_increment now s pid n).player_b_score = n ∧
      (handle_rep_increment now s pid n).player_a_score = s.player_a_score ∧
      (handle_rep_increment now s pid n).player_a_rounds_won =
        s.player_a_rounds_won ∧
      (handle_rep_increment now s pid n).player_b_rounds_won =
        s.player_b_rounds_won ∧
      (handle_rep_increment now s pid n).status =
        (if s.status = "waiting" then "active" else s.status)) ∧
    (s.player_a_id ≠ pid → s.player_b_id ≠ pid →
      handle_rep_increment now s pid n = s) := by
  refine ⟨?_, ?_, ?_⟩
  · intro h
    unfold handle_rep_increment
    rw [if_pos h]
    exact ⟨rfl, rfl, rfl, rfl, rfl⟩
  · intro ha hb
    unfold handle_rep_increment
    rw [if_neg ha, if_pos hb]
    exact ⟨rfl, rfl, rfl, rfl, rfl⟩
  · intro ha hb
    unfold handle_rep_increment
    rw [if_neg ha, if_neg hb]

/-- Witness for C5: on a waiting session, player 1 reporting 5 reps sets A's
score to 5, keeps B's score, and activates the session; player 3 (neither
seat) changes nothing. -/
theorem handle_rep_increment_spec_witness :
    ((handle_rep_increment 0 waiting_session 1 5).player_a_score = 5 ∧
      (handle_rep_increment 0 waiting_session 1 5).player_b_score =
        waiting_session.player_b_score ∧
      (handle_rep_increment 0 waiting_session 1 5).player_a_rounds_won =
        waiting_session.player_a_rounds_won ∧
      (handle_rep_increment 0 waiting_session 1 5).player_b_rounds_won =
        waiting_session.player_b_rounds_won ∧
      (handle_rep_increment 0 waiting_session 1 5).status =
        (if waiting_session.status = "waiting" then "active"
         else waiting_session.status)) ∧
    handle_rep_increment 0 waiting_session 3 5 = waiting_session :=
  ⟨(handle_rep_increment_spec 0 waiting_session 1 5).1 rfl,
   (handle_rep_increment_spec 0 waiting_session 3 5).2.2 (by decide)
     (by decide)⟩

/-- C6: `set_player_ready` returns `true` exactly when the game has exactly
two distinct connected players and both have a true ready flag recorded
after the call; and for a game with connected players `a ≠ b` and no flags
yet, ready(a) yields `false` with no COUNTDOWN_START while the following
ready(b) yields `true` with exactly one COUNTDOWN_START broadcast. -/
theorem set_player_ready_both_ready (cm : ConnectionManager) (g p : Nat)
    (r : Bool) (hnd : (get_connected_players cm g).Nodup) :
    ((set_player_ready cm g p r).2 = true ↔
      ∃ a b, alookup cm.active_connections g = some [a, b] ∧ a ≠ b ∧
        ready_flag (set_player_ready cm g p r).1 g a = true ∧
        ready_flag (set_player_ready cm g p r).1 g b = true) ∧
    (∀ a b, alookup cm.active_connections g = some [a, b] → a ≠ b →
      alookup cm.player_ready_status g = none →
      (handle_player_ready cm g a true).2.1 = false ∧
      (handle_player_ready cm g a true).2.2 = 0 ∧
      (handle_player_ready (handle_player_ready cm g a true).1 g b
        true).2.1 = true ∧
      (handle_player_ready (handle_player_ready cm g a true).1 g b
        true).2.2 = 1) := by
  constructor
  · cases hac : alookup cm.active_connections g with
    | none =>
      constructor
      · intro h
        simp only [set_player_ready, hac] at h
        exact Bool.noConfusion h
      · rintro ⟨a, b, hab, -⟩
        exact absurd hab (by simp)
    | some players =>
      by_cases hlen : players.length = 2
      · obtain ⟨a, b, hab⟩ := List.length_eq_two.mp hlen
        subst hab
        have hne : a ≠ b := by
          have hnd' : ([a, b] : List Nat).Nodup := by
            simpa [get_connected_players, hac] using hnd
          have := (List.nodup_cons.mp hnd').1
          simpa using this
        constructor
        · intro h
          simp only [set_player_ready, hac, if_pos hlen, List.all_cons,
            List.all_nil, Bool.and_true, Bool.and_eq_true] at h
          exact ⟨a, b, rfl, hne, by simpa [set_player_ready] using h.1,
            by simpa [set_player_ready] using h.2⟩
        · rintro ⟨a', b', hab', -, hfa, hfb⟩
          have ha' : a = a' ∧ b = b' := by
            simpa using hab'
          obtain ⟨h1, h2⟩ := ha'
          rw [← h1] at hfa
          rw [← h2] at hfb
          simp only [set_player_ready, hac, if_pos hlen, List.all_cons,
            List.all_nil, Bool.and_true, Bool.and_eq_true]
          simp only [set_player_ready] at hfa hfb
          exact ⟨hfa, hfb⟩
      · constructor
        · intro h
          simp only [set_player_ready, hac, if_neg hlen] at h
          exact Bool.noConfusion h
        · rintro ⟨a', b', hab', -⟩
          apply absurd hab'
          intro hc
          apply hlen
          have : players = [a', b'] := by simpa using hc
          simp [this]
  · intro a b hac hne hrs
    have hset1 : set_player_ready cm g a true =
        ({ active_connections := cm.active_connections,
           player_ready_status :=
             aset cm.player_ready_status g [(a, true)] }, false) := by
      simp [set_player_ready, hac, hrs, aset, ready_flag, alookup_aset_self,
        alookup, hne, Ne.symm hne]
    have hset2 : set_player_ready
        { active_connections := cm.active_connections,
          player_ready_status :=
            aset cm.player_ready_status g [(a, true)] } g b true =
        ({ active_connections := cm.active_connections,
           player_ready_status :=
             aset cm.player_ready_status g [(a, true), (b, true)] },
         true) := by
      have hread : alookup (aset cm.player_ready_status g [(a, true)]) g =
          some [(a, true)] := alookup_aset_self _ _ _
      simp [set_player_ready, hac, hread, aset, Ne.symm hne, aset_aset,
        ready_flag, alookup_aset_self, alookup, hne]
    simp [handle_player_ready, hset1, hset2]

/-- Witness for C6: game 7 with connected players 1 and 2 and no recorded
flags — ready(1) yields false and no countdown, then ready(2) yields true
and exactly one COUNTDOWN_START. -/
theorem set_player_ready_both_ready_witness :
    (handle_player_ready cm_two_players 7 1 true).2.1 = false ∧
    (handle_player_ready cm_two_players 7 1 true).2.2 = 0 ∧
    (handle_player_ready (handle_player_ready cm_two_players 7 1 true).1 7 2
      true).2.1 = true ∧
    (handle_player_ready (handle_player_ready cm_two_players 7 1 true).1 7 2
      true).2.2 = 1 :=
  (set_player_ready_both_ready cm_two_players 7 1 true (by decide)).2 1 2
    (by decide) (by decide) (by decide)

/-- C7 (counterexample): the fourth of four queued players gets
queue_position 4 and estimated_wait 30, but the claim's formula
`max(10, (position/2)*30)` yields 60 at position 4 — the code computes the
heuristic from the 0-based index (`player_position // 2`), not from the
1-based position. -/
theorem get_queue_status_formula_counterexample :
    get_queue_status [qp 1 0, qp 2 0, qp 3 0, qp 4 0] 4 =
      { in_queue := true, queue_position := 4, estimated_wait := 30 } ∧
    (30 : Nat) ≠ max 10 (4 / 2 * 30) := by
  refine ⟨by decide, by decide⟩

/-- C7 (amended): for a queued player at 0-based FIFO index `i`,
`get_queue_status` reports in_queue, position `i + 1` (hence always ≥ 1) and
an estimated wait of 30 when first in line, 5 when second, and otherwise
`max(10, (i / 2) * 30)` — i.e. the claim's formula with the 0-based index
`position - 1` in place of the position. -/
theorem get_queue_status_position (st : List QueuedPlayer) (pid : Nat)
    (i : Nat) (hi : i < st.length) (hkey : NodupKeys st)
    (hp : (st.get ⟨i, hi⟩).player_id = pid) :
    get_queue_status st pid =
      { in_queue := true, queue_position := i + 1,
        estimated_wait :=
          if i = 0 then 30 else if i = 1 then 5
          else max 10 (i / 2 * 30) } := by
  have hmem : st.any (fun q => q.player_id == pid) = true :=
    any_key_eq_true_of_mem (st.get_mem i hi) hp
  have hfind : st.findIdx (fun q => q.player_id == pid) = i :=
    findIdx_key_of_nodup st pid i hi hkey hp
  simp [get_queue_status, hmem, hfind]

/-- Witness for C7's amended theorem: fourth player in a four-player queue. -/
theorem get_queue_status_position_witness :
    get_queue_status [qp 1 0, qp 2 0, qp 3 0, qp 4 0] 4 =
      { in_queue := true, queue_position := 4, estimated_wait := 30 } :=
  get_queue_status_position [qp 1 0, qp 2 0, qp 3 0, qp 4 0] 4 3 (by decide)
    (by decide) (by decide)

/-- C8: after `disconnect(game_id, player_id)` the connected-players list of
that game no longer contains the player; and when that player was the only
registered player of the game, the game's entry itself is gone from the
registry map. -/
theorem disconnect_removes_player (cm : ConnectionManager) (g p : Nat) :
    p ∉ get_connected_players (disconnect cm g p) g ∧
    (alookup cm.active_connections g = some [p] →
      alookup (disconnect cm g p).active_connections g = none) := by
  constructor
  · cases hac : alookup cm.active_connections g with
    | none =>
      simp [disconnect, get_connected_players, hac]
    | some players =>
      by_cases hmem : p ∈ players
      · by_cases hempty : removeKey players p = []
        · simp [disconnect, get_connected_players, hac, hmem, hempty,
            alookup_aerase_self]
        · simp only [disconnect, get_connected_players, hac, if_pos hmem,
            if_neg hempty, alookup_aset_self, Option.getD_some]
          exact not_mem_removeKey players p
      · by_cases hempty : players = ([] : List Nat)
        · simp [disconnect, get_connected_players, hac, hmem, hempty,
            alookup_aerase_self]
        · simp only [disconnect, get_connected_players, hac, if_neg hmem,
            ite_false, if_neg hempty, alookup_aset_self, Option.getD_some]
          exact hmem
  · intro hac
    have hmem : p ∈ [p] := by simp
    have hempty : removeKey [p] p = [] := by simp [removeKey]
    simp [disconnect, hac, hmem, hempty, alookup_aerase_self]

/-- Witness for C8: disconnecting player 2, the only registration of game 7,
leaves no trace of the player and prunes the game's entry. -/
theorem disconnect_removes_player_witness :
    (2 : Nat) ∉ get_connected_players (disconnect cm_one_player 7 2) 7 ∧
    alookup (disconnect cm_one_player 7 2).active_connections 7 = none :=
  ⟨(disconnect_removes_player cm_one_player 7 2).1,
   (disconnect_removes_player cm_one_player 7 2).2 (by decide)⟩

/-- C9 (code evaluated at the failing input): with player 1 queued since
t=0 and the sweep running at t=1000 (a 1000s wait exceeds the 300s timeout,
so the player is stale), `cleanup_stale_players` never completes: it awaits
`remove_player`, which re-acquires the non-reentrant `self.lock` the sweep
itself holds. -/
theorem cleanup_stale_players_deadlocks :
    queue_timeout < 1000 - (qp 1 0).queued_at ∧
    remove_player true [qp 1 0] 1 = none ∧
    cleanup_stale_players 1000 [qp 1 0] = none :=
  ⟨by decide, rfl, rfl⟩

/-- C10 (code evaluated at the failing input): the keyword arguments
`join_queue` passes to `matchmaking_queue.add_player` include `session`,
which is not among `add_player`'s parameters, so Python keyword binding
rejects the call (TypeError) before any queue mutation. -/
theorem join_queue_add_player_kwargs_rejected :
    kwargs_accepted join_queue_kwargs add_player_params = false ∧
    join_queue_kwargs.contains "session" = true ∧
    add_player_params.contains "session" = false := by
  refine ⟨by decide, by decide, by decide⟩

end FitDuo
